import Mathlib

/-!
Verification of the statistics & forecasting core of the income-ledger
application (`app/database.py`, `app/models.py`).

Shallow embedding conventions:

* Python `datetime` values are represented by `DateTime`: an absolute
  calendar-day number (`day : ℤ`, e.g. days since an epoch) together with the
  time of day (`tod : ℕ`, e.g. microseconds since midnight).  Comparison of
  `datetime` values — and of their ISO-8601 strings, which is what the SQLite
  queries `date >= ?`/`date <= ?` compare — is lexicographic on
  `(day, tod)`.  `DATE(date)` / `strftime('%Y-%m-%d', date)` extracts the
  calendar day, modelled by the `day` component (the ISO day string and the
  absolute day number are in order-preserving bijection).
  `timedelta(days = n)` arithmetic adds/subtracts `n` to/from `day`, leaving
  `tod` unchanged, exactly as in Python.
* Monetary amounts (Python floats holding currency values) are modelled as
  exact rationals `ℚ`; the spec's formulas are stated over real arithmetic.
* The SQLite table `income_records` is modelled as the list `records` of a
  `Database`, in insertion order, together with the AUTOINCREMENT counter
  `nextId` (every stored row has `id < nextId`, and a fresh insert receives
  `nextId` as its `lastrowid`).
* `get_monthly_budget` reads the `monthly_budget` key of the `app_settings`
  table and parses it as a float, falling back to `0.0`.  The string parsing
  is not touched by any claim, so the `Database` carries the parsed value
  directly as `monthlyBudget`.
* Calls of `datetime.now()` and the calendar values Python derives from it
  (the bounds of the current year, the day-of-month, the number of days of
  the current month) are passed explicitly as a `Clock`, making each
  operation a pure function of (clock, store contents).
-/

namespace RecordKeeping

/-- Python `datetime`: absolute calendar-day number plus time of day.
Ordering of datetimes (and of their ISO strings in SQLite) is lexicographic
on `(day, tod)`. -/
structure DateTime where
  day : ℤ
  tod : ℕ
  deriving DecidableEq

/-- Python `a <= b` on `datetime` (equally, SQLite `a <= b` on the ISO
strings): lexicographic on (day, time-of-day). -/
def dtLe (a b : DateTime) : Prop :=
  a.day < b.day ∨ (a.day = b.day ∧ a.tod ≤ b.tod)

instance : DecidableRel dtLe := fun a b => by
  unfold dtLe; exact inferInstance

/-- Python `a < b` on `datetime`: strict lexicographic order. -/
def dtLt (a b : DateTime) : Prop :=
  a.day < b.day ∨ (a.day = b.day ∧ a.tod < b.tod)

instance : DecidableRel dtLt := fun a b => by
  unfold dtLt; exact inferInstance

/-- Python `d - timedelta(days = n)`: moves the calendar day back `n` days,
keeping the time of day. -/
def subDays (d : DateTime) (n : ℕ) : DateTime :=
  ⟨d.day - n, d.tod⟩

/-- Python `d + timedelta(days = 1)` (the step of the gap-filling loop in
`get_daily_trend`). -/
def addOneDay (d : DateTime) : DateTime :=
  ⟨d.day + 1, d.tod⟩

/-- The dataclass `IncomeRecord` of `app/models.py`: `id` is `None` before
first persistence. -/
structure IncomeRecord where
  id : Option ℕ
  amount : ℚ
  category : String
  description : String
  date : DateTime
  created_at : DateTime
  deriving DecidableEq

/-- Construction of an `IncomeRecord`, including the `__post_init__`
validation: a negative `amount` raises `ValueError("金额不能为负数")`,
modelled as `Except.error`; otherwise the dataclass is produced with the
given field values. -/
def mkIncomeRecord (id : Option ℕ) (amount : ℚ) (category description : String)
    (date created_at : DateTime) : Except String IncomeRecord :=
  if amount < 0 then
    .error "金额不能为负数"
  else
    .ok ⟨id, amount, category, description, date, created_at⟩

/-- One row of the SQLite table `income_records`: like `IncomeRecord` but
with the primary key assigned. -/
structure Row where
  id : ℕ
  amount : ℚ
  category : String
  description : String
  date : DateTime
  created_at : DateTime
  deriving DecidableEq

/-- The persistent store: the `income_records` table (in insertion order),
the AUTOINCREMENT counter, and the parsed `monthly_budget` setting (the
value `get_monthly_budget` returns; `0` when unset or unparseable). -/
structure Database where
  records : List Row
  nextId : ℕ
  monthlyBudget : ℚ
  deriving DecidableEq

/-- `Database.add_income`: INSERT the record's mutable fields and
`created_at`; SQLite assigns the next AUTOINCREMENT id, which is returned as
`lastrowid`. -/
def add_income (db : Database) (r : IncomeRecord) : ℕ × Database :=
  let i := db.nextId
  (i, { db with
          records := db.records ++
            [⟨i, r.amount, r.category, r.description, r.date, r.created_at⟩],
          nextId := i + 1 })

/-- `Database.update_income`: `None` id returns `False` at once; otherwise
UPDATE sets `amount, category, description, date` on the rows whose id
matches and returns `rowcount > 0`. -/
def update_income (db : Database) (r : IncomeRecord) : Bool × Database :=
  match r.id with
  | none => (false, db)
  | some i =>
    (db.records.any (fun row => row.id == i),
     { db with
         records := db.records.map (fun row =>
           if row.id == i then
             { row with amount := r.amount, category := r.category,
                        description := r.description, date := r.date }
           else row) })

/-- `Database.delete_income`: DELETE the rows whose id matches and return
`rowcount > 0`. -/
def delete_income (db : Database) (record_id : ℕ) : Bool × Database :=
  (db.records.any (fun row => row.id == record_id),
   { db with records := db.records.filter (fun row => row.id != record_id) })

/-- `Database.get_income_by_id`: SELECT the row with the given primary key
(`None` when absent). -/
def get_income_by_id (db : Database) (record_id : ℕ) : Option Row :=
  db.records.find? (fun row => row.id == record_id)

/-- Sort key of `ORDER BY date DESC, created_at DESC`: `a` comes no later
than `b` when `a.date > b.date`, or the dates tie and
`a.created_at ≥ b.created_at`. -/
def listedBefore (a b : Row) : Prop :=
  dtLt b.date a.date ∨ (b.date = a.date ∧ dtLe b.created_at a.created_at)

instance : DecidableRel listedBefore := fun a b => by
  unfold listedBefore; exact inferInstance

/-- `Database.get_incomes`: filter by optional `date >= start`,
`date <= end` and `category = ?`, `ORDER BY date DESC, created_at DESC`,
then `LIMIT ? OFFSET ?`. -/
def get_incomes (db : Database) (start_date end_date : Option DateTime)
    (category : Option String) (limit offset : ℕ) : List Row :=
  let sel := db.records.filter (fun row =>
    (match start_date with
     | some s => decide (dtLe s row.date)
     | none => true) &&
    (match end_date with
     | some e => decide (dtLe row.date e)
     | none => true) &&
    (match category with
     | some c => row.category == c
     | none => true))
  ((sel.insertionSort listedBefore).drop offset).take limit

/-- Sum of the amounts of a list of rows; `COALESCE(SUM(amount), 0)` makes
the empty sum `0`. -/
def sumAmounts (rows : List Row) : ℚ :=
  (rows.map (fun row => row.amount)).sum

/-- `SELECT COALESCE(SUM(amount), 0) ... WHERE date >= s AND date <= e`
(the windowed-total query shared by `get_yearly_income`,
`get_monthly_income` and `get_spending_forecast`). -/
def windowSum (db : Database) (s e : DateTime) : ℚ :=
  sumAmounts (db.records.filter (fun row =>
    decide (dtLe s row.date) && decide (dtLe row.date e)))

/-- `Database.get_total_income`: `COALESCE(SUM(amount), 0)` over the whole
table. -/
def get_total_income (db : Database) : ℚ :=
  sumAmounts db.records

/-- The ambient wall clock `datetime.now()` together with the calendar
values the code derives from it.  Gregorian calendar arithmetic (month
lengths, leap years, year bounds) is deterministic in `now`; it is passed
here explicitly so every operation is a pure function of (clock, store):

* `now` — the value of `datetime.now()`;
* `yearStart`, `yearEnd` — `datetime(year, 1, 1)` and
  `datetime(year, 12, 31, 23, 59, 59)` for `now`'s year
  (`get_yearly_income`'s default window);
* `passedDays` — `now.day`, the 1-indexed day of month;
* `totalDays` — the number of days of `now`'s month, computed by the source
  as `(next_month - timedelta(days=1)).day`. -/
structure Clock where
  now : DateTime
  yearStart : DateTime
  yearEnd : DateTime
  passedDays : ℕ
  totalDays : ℕ
  deriving DecidableEq

/-- `Database.get_yearly_income` for the clock's (current) year: windowed
sum over `[Jan 1 00:00:00, Dec 31 23:59:59]`. -/
def get_yearly_income (db : Database) (clk : Clock) : ℚ :=
  windowSum db clk.yearStart clk.yearEnd

/-- `Database.get_monthly_income`: windowed sum over the trailing window
`[now - days, now]`. -/
def get_monthly_income (db : Database) (now : DateTime) (days : ℕ) : ℚ :=
  windowSum db (subDays now days) now

/-- `SELECT COUNT(DISTINCT DATE(date)) FROM income_records`: the number of
distinct calendar days carrying at least one record. -/
def distinctRecordDays (db : Database) : ℕ :=
  ((db.records.map (fun row => row.date.day)).dedup).length

/-- `Database.get_daily_average`: total income divided by the number of
distinct calendar days with records; `0.0` when that number is zero. -/
def get_daily_average (db : Database) : ℚ :=
  let days := distinctRecordDays db
  if days = 0 then 0
  else get_total_income db / days

/-- `Database.get_statistics`: the dict the core hands to the UI, modelled
as an association list in the insertion order of the Python dict literal. -/
def get_statistics (db : Database) (clk : Clock) : List (String × ℚ) :=
  [("total_income", get_total_income db),
   ("yearly_income", get_yearly_income db clk),
   ("monthly_income", get_monthly_income db clk.now 30),
   ("daily_average", get_daily_average db)]

/-- `Database.get_record_count`: `SELECT COUNT(*) FROM income_records`. -/
def get_record_count (db : Database) : ℕ :=
  db.records.length

/-- Gap-filling loop of `get_daily_trend`: starting from `current`, while
`current <= stop` append the day string (modelled by the day number) and
`data.get(day, 0.0)` (the `value` argument), then advance one day. -/
def trendLoop (value : ℤ → ℚ) (current stop : DateTime) : List ℤ × List ℚ :=
  if h : dtLe current stop then
    let rest := trendLoop value (addOneDay current) stop
    (current.day :: rest.1, value current.day :: rest.2)
  else ([], [])
termination_by (stop.day + 1 - current.day).toNat
decreasing_by
  rcases h with h | ⟨h, _⟩ <;> simp [addOneDay] <;> omega

/-- `Database.get_daily_trend`: group the records of the window
`[now - days, now]` by calendar day with `SUM(amount)`, then walk the full
day calendar of the window, reading each day's sum out of the grouped dict
with default `0.0`.  A day's dict entry, when present, is the sum of the
window's records on that day, and the default `0.0` equals the empty sum,
so the lookup is the windowed per-day sum in both cases. -/
def get_daily_trend (db : Database) (now : DateTime) (days : ℕ) :
    List ℤ × List ℚ :=
  let start_date := subDays now days
  let window := db.records.filter (fun row =>
    decide (dtLe start_date row.date) && decide (dtLe row.date now))
  trendLoop (fun d => sumAmounts (window.filter (fun row => row.date.day == d)))
    start_date now

/-- Status classification of `get_spending_forecast` (the block starting at
`status = "safe"`): with a positive budget, `predicted_total > budget` is
`"danger"`, otherwise `predicted_total > budget * 0.9` is `"warning"`;
everything else, including the no-budget case, stays `"safe"`. -/
def forecastStatus (budget predicted_total : ℚ) : String :=
  if budget > 0 then
    if predicted_total > budget then "danger"
    else if predicted_total > budget * (9/10) then "warning"
    else "safe"
  else "safe"

/-- Result dict of `Database.get_spending_forecast`. -/
structure Forecast where
  predicted_total : ℚ
  remaining_days : ℤ
  daily_average : ℚ
  status : String
  current_month_spending : ℚ
  deriving DecidableEq

/-- `now.replace(day=1, hour=0, minute=0, second=0, microsecond=0)`: the
first instant of the current month.  With `passedDays = now.day`, the first
of the month lies `passedDays - 1` calendar days before `now`. -/
def startOfMonth (clk : Clock) : DateTime :=
  ⟨clk.now.day - ((clk.passedDays : ℤ) - 1), 0⟩

/-- `Database.get_spending_forecast`: blended daily rate (current-month
average weighted by `min(0.8, passed_days / 15.0)` against the historical
daily average once `passed_days > 1`), linear extrapolation over the
remaining days, and status classification against the stored budget. -/
def get_spending_forecast (db : Database) (clk : Clock) : Forecast :=
  let remaining_days : ℤ := (clk.totalDays : ℤ) - (clk.passedDays : ℤ)
  let real_month_spending := windowSum db (startOfMonth clk) clk.now
  let historical_daily_avg := get_daily_average db
  let daily_avg :=
    if clk.passedDays > 1 then
      let current_daily_avg := real_month_spending / (clk.passedDays : ℚ)
      let weight_current := min (4/5 : ℚ) ((clk.passedDays : ℚ) / 15)
      current_daily_avg * weight_current +
        historical_daily_avg * (1 - weight_current)
    else historical_daily_avg
  let predicted_remaining := daily_avg * (remaining_days : ℚ)
  let predicted_total := real_month_spending + predicted_remaining
  { predicted_total := predicted_total
    remaining_days := remaining_days
    daily_average := daily_avg
    status := forecastStatus db.monthlyBudget predicted_total
    current_month_spending := real_month_spending }

/-- Sum of the amounts of all records whose calendar day is `d` (the
"sum of record amounts on that day" of the spec, with no window
restriction); used to compare against the values `get_daily_trend`
reports. -/
def dayTotal (db : Database) (d : ℤ) : ℚ :=
  sumAmounts (db.records.filter (fun row => row.date.day == d))

/-- Transitivity of the `datetime` order. -/
lemma dtLe_trans {a b c : DateTime} (h1 : dtLe a b) (h2 : dtLe b c) :
    dtLe a c := by
  unfold dtLe at *
  rcases h1 with h1 | ⟨h1, h1t⟩ <;> rcases h2 with h2 | ⟨h2, h2t⟩ <;> omega

/-- A window whose end precedes its start contains no datetime at all. -/
lemma not_in_empty_window {s e : DateTime} (hlt : dtLt e s) (d : DateTime) :
    ¬ (dtLe s d ∧ dtLe d e) := by
  rintro ⟨h1, h2⟩
  have := dtLe_trans h1 h2
  unfold dtLe dtLt at *
  rcases this with h | ⟨h, ht⟩ <;> rcases hlt with h' | ⟨h', ht'⟩ <;> omega

/-- C6: constructing a `Record` with a negative amount raises
`ValidationError` (never silently corrected), and construction with a
non-negative amount succeeds with the given field values. -/
theorem record_amount_validation (id : Option ℕ) (amount : ℚ)
    (category description : String) (date created_at : DateTime) :
    (amount < 0 →
      mkIncomeRecord id amount category description date created_at =
        .error "金额不能为负数") ∧
    (0 ≤ amount →
      mkIncomeRecord id amount category description date created_at =
        .ok ⟨id, amount, category, description, date, created_at⟩) := by
  constructor
  · intro h
    simp [mkIncomeRecord, h]
  · intro h
    simp [mkIncomeRecord, not_lt.mpr h]

/-- Witness for C6 at `amount = -1` and `amount = 5`. -/
theorem record_amount_validation_witness :
    mkIncomeRecord none (-1) "工资" "" ⟨0, 0⟩ ⟨0, 0⟩ =
      .error "金额不能为负数" ∧
    mkIncomeRecord none 5 "工资" "" ⟨0, 0⟩ ⟨0, 0⟩ =
      .ok ⟨none, 5, "工资", "", ⟨0, 0⟩, ⟨0, 0⟩⟩ :=
  ⟨(record_amount_validation none (-1) "工资" "" ⟨0, 0⟩ ⟨0, 0⟩).1 (by norm_num),
   (record_amount_validation none 5 "工资" "" ⟨0, 0⟩ ⟨0, 0⟩).2 (by norm_num)⟩

/-- C10: `update_income` on a record whose id is `None` returns `False`
immediately and leaves the store untouched, whatever the other fields
hold. -/
theorem update_none_id_is_noop (db : Database) (amount : ℚ)
    (category description : String) (date created_at : DateTime) :
    update_income db ⟨none, amount, category, description, date, created_at⟩ =
      (false, db) :=
  rfl

/-- C7: `update_income` and `delete_income` on an id matching no stored row
return `False` (not an exception) and leave the store contents unchanged. -/
theorem missing_id_update_delete (db : Database) (r : IncomeRecord)
    (i j : ℕ) :
    (r.id = some i → (∀ row ∈ db.records, row.id ≠ i) →
       update_income db r = (false, db)) ∧
    ((∀ row ∈ db.records, row.id ≠ j) →
       delete_income db j = (false, db)) := by
  constructor
  · intro hid hmiss
    obtain ⟨rid, ra, rc, rd, rdt, rca⟩ := r
    simp only at hid
    subst hid
    unfold update_income
    simp only [Prod.mk.injEq]
    constructor
    · simp only [List.any_eq_false]
      intro row hr
      simp [hmiss row hr]
    · have hmap : db.records.map (fun row =>
          if row.id == i then
            { row with amount := ra, category := rc,
                       description := rd, date := rdt }
          else row) = db.records := by
        rw [List.map_congr_left (g := id) ?_, List.map_id]
        intro row hr
        simp [beq_eq_false_iff_ne.mpr (hmiss row hr)]
      rw [hmap]
  · intro hmiss
    unfold delete_income
    simp only [Prod.mk.injEq]
    constructor
    · simp only [List.any_eq_false]
      intro row hr
      simp [hmiss row hr]
    · have hfil : db.records.filter (fun row => row.id != j) = db.records :=
        List.filter_eq_self.mpr (fun row hr => by
          simp [bne_iff_ne, hmiss row hr])
      rw [hfil]

/-- Witness for C7: a one-row store, update and delete with the absent
id 7. -/
theorem missing_id_update_delete_witness :
    update_income ⟨[⟨1, 10, "a", "", ⟨0, 0⟩, ⟨0, 0⟩⟩], 2, 0⟩
        ⟨some 7, 3, "b", "c", ⟨1, 0⟩, ⟨1, 0⟩⟩ =
      (false, ⟨[⟨1, 10, "a", "", ⟨0, 0⟩, ⟨0, 0⟩⟩], 2, 0⟩) ∧
    delete_income ⟨[⟨1, 10, "a", "", ⟨0, 0⟩, ⟨0, 0⟩⟩], 2, 0⟩ 7 =
      (false, ⟨[⟨1, 10, "a", "", ⟨0, 0⟩, ⟨0, 0⟩⟩], 2, 0⟩) :=
  ⟨(missing_id_update_delete ⟨[⟨1, 10, "a", "", ⟨0, 0⟩, ⟨0, 0⟩⟩], 2, 0⟩
      ⟨some 7, 3, "b", "c", ⟨1, 0⟩, ⟨1, 0⟩⟩ 7 7).1 rfl
      (by intro row hr; simp at hr; simp [hr]),
   (missing_id_update_delete ⟨[⟨1, 10, "a", "", ⟨0, 0⟩, ⟨0, 0⟩⟩], 2, 0⟩
      ⟨some 7, 3, "b", "c", ⟨1, 0⟩, ⟨1, 0⟩⟩ 7 7).2
      (by intro row hr; simp at hr; simp [hr])⟩

/-- C4: `get_daily_average` is the total of all amounts divided by the
number of distinct calendar days holding at least one record, is `0.0` when
there is no such day, and depends on the store only through that total and
that distinct-day count (not through the per-day record multiplicity or the
span of the ledger). -/
theorem daily_average_spec (db db2 : Database) :
    (distinctRecordDays db = 0 → get_daily_average db = 0) ∧
    (distinctRecordDays db ≠ 0 →
       get_daily_average db =
         get_total_income db / (distinctRecordDays db : ℚ)) ∧
    (get_total_income db = get_total_income db2 →
       distinctRecordDays db = distinctRecordDays db2 →
       get_daily_average db = get_daily_average db2) := by
  refine ⟨?_, ?_, ?_⟩
  · intro h
    simp [get_daily_average, h]
  · intro h
    simp [get_daily_average, h]
  · intro htot hdays
    unfold get_daily_average
    rw [htot, hdays]

/-- Witness for C4: three records on two distinct days totalling 6 give
average `3`, and a differently shaped store with the same total and day
count gives the same average. -/
theorem daily_average_spec_witness :
    get_daily_average ⟨[⟨1, 1, "a", "", ⟨0, 1⟩, ⟨0, 1⟩⟩,
                        ⟨2, 2, "a", "", ⟨0, 2⟩, ⟨0, 2⟩⟩,
                        ⟨3, 3, "a", "", ⟨5, 0⟩, ⟨5, 0⟩⟩], 4, 0⟩ = 3 ∧
    get_daily_average ⟨[⟨1, 1, "a", "", ⟨0, 1⟩, ⟨0, 1⟩⟩,
                        ⟨2, 2, "a", "", ⟨0, 2⟩, ⟨0, 2⟩⟩,
                        ⟨3, 3, "a", "", ⟨5, 0⟩, ⟨5, 0⟩⟩], 4, 0⟩ =
      get_daily_average ⟨[⟨1, 4, "b", "", ⟨7, 0⟩, ⟨7, 0⟩⟩,
                          ⟨2, 2, "b", "", ⟨9, 0⟩, ⟨9, 0⟩⟩], 3, 0⟩ := by
  constructor
  · rw [(daily_average_spec ⟨[⟨1, 1, "a", "", ⟨0, 1⟩, ⟨0, 1⟩⟩,
          ⟨2, 2, "a", "", ⟨0, 2⟩, ⟨0, 2⟩⟩,
          ⟨3, 3, "a", "", ⟨5, 0⟩, ⟨5, 0⟩⟩], 4, 0⟩
          ⟨[], 0, 0⟩).2.1 (by simp [distinctRecordDays])]
    simp [distinctRecordDays, get_total_income, sumAmounts]
    norm_num
  · exact (daily_average_spec ⟨[⟨1, 1, "a", "", ⟨0, 1⟩, ⟨0, 1⟩⟩,
          ⟨2, 2, "a", "", ⟨0, 2⟩, ⟨0, 2⟩⟩,
          ⟨3, 3, "a", "", ⟨5, 0⟩, ⟨5, 0⟩⟩], 4, 0⟩
          ⟨[⟨1, 4, "b", "", ⟨7, 0⟩, ⟨7, 0⟩⟩,
            ⟨2, 2, "b", "", ⟨9, 0⟩, ⟨9, 0⟩⟩], 3, 0⟩).2.2
      (by simp [get_total_income, sumAmounts]; norm_num)
      (by simp [distinctRecordDays])

/-- C5 counterexample: the statistics dict built by `get_statistics` holds
exactly the four keys `total_income`, `yearly_income`, `monthly_income`,
`daily_average` — `record_count` and the forecast fields are absent. -/
theorem statistics_payload_counterexample :
    (get_statistics ⟨[], 0, 0⟩ ⟨⟨0, 0⟩, ⟨0, 0⟩, ⟨0, 0⟩, 1, 31⟩).map
        Prod.fst =
      ["total_income", "yearly_income", "monthly_income", "daily_average"] ∧
    (get_statistics ⟨[], 0, 0⟩ ⟨⟨0, 0⟩, ⟨0, 0⟩, ⟨0, 0⟩, 1, 31⟩).lookup
        "record_count" = none ∧
    (get_statistics ⟨[], 0, 0⟩ ⟨⟨0, 0⟩, ⟨0, 0⟩, ⟨0, 0⟩, 1, 31⟩).lookup
        "predicted_total" = none ∧
    (get_statistics ⟨[], 0, 0⟩ ⟨⟨0, 0⟩, ⟨0, 0⟩, ⟨0, 0⟩, 1, 31⟩).lookup
        "status" = none := by
  refine ⟨rfl, ?_, ?_, ?_⟩ <;> rfl

/-- C5 amended: for every store and clock the statistics payload holds
exactly the fields `total_income`, `yearly_income`, `monthly_income`
(trailing 30 days) and `daily_average`, each bound to the corresponding
aggregate; `record_count` and the forecast output are not part of it and
are served by the separate operations `get_record_count` and
`get_spending_forecast`. -/
theorem statistics_payload_fields (db : Database) (clk : Clock) :
    (get_statistics db clk).map Prod.fst =
      ["total_income", "yearly_income", "monthly_income", "daily_average"] ∧
    (get_statistics db clk).lookup "total_income" =
      some (get_total_income db) ∧
    (get_statistics db clk).lookup "yearly_income" =
      some (get_yearly_income db clk) ∧
    (get_statistics db clk).lookup "monthly_income" =
      some (get_monthly_income db clk.now 30) ∧
    (get_statistics db clk).lookup "daily_average" =
      some (get_daily_average db) ∧
    (get_statistics db clk).lookup "record_count" = none := by
  refine ⟨rfl, ?_, ?_, ?_, ?_, ?_⟩ <;> rfl

/-- C2: with a positive budget the forecast status is `"danger"` exactly on
`predicted_total > budget`, `"warning"` exactly on
`budget * 0.9 < predicted_total ≤ budget`, and `"safe"` exactly on
`predicted_total ≤ budget * 0.9`; with `budget ≤ 0` it is `"safe"`
unconditionally; and `get_spending_forecast` classifies its predicted total
by exactly this rule. -/
theorem forecast_status_classification (budget pt : ℚ) :
    (0 < budget →
       ((forecastStatus budget pt = "danger" ↔ budget < pt) ∧
        (forecastStatus budget pt = "warning" ↔
           budget * (9/10) < pt ∧ pt ≤ budget) ∧
        (forecastStatus budget pt = "safe" ↔ pt ≤ budget * (9/10)))) ∧
    (budget ≤ 0 → forecastStatus budget pt = "safe") ∧
    (∀ (db : Database) (clk : Clock),
       (get_spending_forecast db clk).status =
         forecastStatus db.monthlyBudget
           (get_spending_forecast db clk).predicted_total) := by
  refine ⟨?_, ?_, ?_⟩
  · intro hb
    unfold forecastStatus
    rw [if_pos hb]
    split_ifs with h1 h2
    · refine ⟨iff_of_true rfl h1, iff_of_false (by decide) ?_,
        iff_of_false (by decide) ?_⟩
      · rintro ⟨-, hle⟩
        exact absurd h1 (not_lt.mpr hle)
      · intro hle
        exact absurd h1 (not_lt.mpr (hle.trans (by nlinarith)))
    · exact ⟨iff_of_false (by decide) (fun h => h1 h),
        iff_of_true rfl ⟨h2, not_lt.mp h1⟩,
        iff_of_false (by decide) (fun h => absurd h2 (not_lt.mpr h))⟩
    · exact ⟨iff_of_false (by decide) (fun h => h1 h),
        iff_of_false (by decide) (fun h => h2 h.1),
        iff_of_true rfl (not_lt.mp h2)⟩
  · intro hb
    unfold forecastStatus
    rw [if_neg (not_lt.mpr hb)]
  · intro db clk
    rfl

/-- Witness for C2 at `budget = 100`: `predicted_total = 100` is
`"warning"`, `predicted_total = 90` is `"safe"`, `predicted_total = 101` is
`"danger"`, and with `budget = 0` the status of `predicted_total = 1000` is
`"safe"`. -/
theorem forecast_status_classification_witness :
    forecastStatus 100 100 = "warning" ∧
    forecastStatus 100 90 = "safe" ∧
    forecastStatus 100 101 = "danger" ∧
    forecastStatus 0 1000 = "safe" :=
  ⟨((forecast_status_classification 100 100).1 (by norm_num)).2.1.mpr
      (by norm_num),
   ((forecast_status_classification 100 90).1 (by norm_num)).2.2.mpr
      (by norm_num),
   ((forecast_status_classification 100 101).1 (by norm_num)).1.mpr
      (by norm_num),
   (forecast_status_classification 0 1000).2.1 le_rfl⟩

/-- C9: a range query whose start lies after its end returns the empty
list (no error is raised — the operations are total), an inverted window's
sum is `0`, and every windowed sum matching no records is `0`. -/
theorem empty_window_semantics (db : Database) (s e : DateTime)
    (category : Option String) (limit offset : ℕ) :
    (dtLt e s →
       get_incomes db (some s) (some e) category limit offset = []) ∧
    (dtLt e s → windowSum db s e = 0) ∧
    ((∀ row ∈ db.records, ¬ (dtLe s row.date ∧ dtLe row.date e)) →
       windowSum db s e = 0) := by
  have hfil : (∀ row ∈ db.records, ¬ (dtLe s row.date ∧ dtLe row.date e)) →
      db.records.filter (fun row =>
        decide (dtLe s row.date) && decide (dtLe row.date e)) = [] := by
    intro hmiss
    rw [List.filter_eq_nil_iff]
    intro row hr
    simp only [Bool.and_eq_true, decide_eq_true_eq]
    exact hmiss row hr
  refine ⟨?_, ?_, ?_⟩
  · intro hlt
    unfold get_incomes
    have hsel : db.records.filter (fun row =>
        decide (dtLe s row.date) && decide (dtLe row.date e) &&
        (match category with
         | some c => row.category == c
         | none => true)) = [] := by
      rw [List.filter_eq_nil_iff]
      intro row hr
      have := not_in_empty_window hlt row.date
      simp only [Bool.and_eq_true, decide_eq_true_eq, not_and]
      intro ⟨h1, h2⟩
      exact absurd ⟨h1, h2⟩ this
    rw [hsel]
    simp [List.insertionSort]
  · intro hlt
    unfold windowSum
    rw [hfil (fun row _ => not_in_empty_window hlt row.date)]
    rfl
  · intro hmiss
    unfold windowSum
    rw [hfil hmiss]
    rfl

/-- Witness for C9: a one-row store queried with the inverted range
`[day 5, day 1]`, which also matches no record. -/
theorem empty_window_semantics_witness :
    get_incomes ⟨[⟨1, 10, "a", "", ⟨0, 0⟩, ⟨0, 0⟩⟩], 2, 0⟩
        (some ⟨5, 0⟩) (some ⟨1, 0⟩) none 1000 0 = [] ∧
    windowSum ⟨[⟨1, 10, "a", "", ⟨0, 0⟩, ⟨0, 0⟩⟩], 2, 0⟩ ⟨5, 0⟩ ⟨1, 0⟩ =
      0 := by
  constructor
  · exact (empty_window_semantics ⟨[⟨1, 10, "a", "", ⟨0, 0⟩, ⟨0, 0⟩⟩], 2, 0⟩
      ⟨5, 0⟩ ⟨1, 0⟩ none 1000 0).1 (by decide)
  · exact (empty_window_semantics ⟨[⟨1, 10, "a", "", ⟨0, 0⟩, ⟨0, 0⟩⟩], 2, 0⟩
      ⟨5, 0⟩ ⟨1, 0⟩ none 1000 0).2.1 (by decide)

/-- C1: the forecast blends the current-month daily rate with the
historical daily average exactly as specified — for `passed_days > 1` the
rate is `real/passed * min(0.8, passed/15) + hist * (1 - min(0.8,
passed/15))`, on the first day of the month it is the historical average
exactly — and extrapolates `predicted_total = real_month_spending +
daily_avg * remaining_days` with `remaining_days = total_days -
passed_days`. -/
theorem spending_forecast_formula (db : Database) (clk : Clock) :
    (1 < clk.passedDays →
       (get_spending_forecast db clk).daily_average =
         (windowSum db (startOfMonth clk) clk.now / (clk.passedDays : ℚ)) *
             min (4/5 : ℚ) ((clk.passedDays : ℚ) / 15) +
           get_daily_average db *
             (1 - min (4/5 : ℚ) ((clk.passedDays : ℚ) / 15))) ∧
    (clk.passedDays = 1 →
       (get_spending_forecast db clk).daily_average =
         get_daily_average db) ∧
    (get_spending_forecast db clk).remaining_days =
      (clk.totalDays : ℤ) - (clk.passedDays : ℤ) ∧
    (get_spending_forecast db clk).predicted_total =
      windowSum db (startOfMonth clk) clk.now +
        (get_spending_forecast db clk).daily_average *
          (((clk.totalDays : ℤ) - (clk.passedDays : ℤ) : ℤ) : ℚ) ∧
    (get_spending_forecast db clk).current_month_spending =
      windowSum db (startOfMonth clk) clk.now := by
  refine ⟨?_, ?_, rfl, rfl, rfl⟩
  · intro h
    unfold get_spending_forecast
    simp only [if_pos h]
  · intro h
    unfold get_spending_forecast
    simp only [h, if_neg (lt_irrefl 1)]

/-- Witness for C1 on the empty store: on day 3 of a 31-day month the
blended rate is `0` by the weighted formula, and on day 1 it equals the
historical average `0`; the predicted total is the extrapolation over the
remaining 28 (resp. 30) days. -/
theorem spending_forecast_formula_witness :
    (get_spending_forecast ⟨[], 0, 0⟩ ⟨⟨2, 5⟩, ⟨0, 0⟩, ⟨30, 0⟩, 3, 31⟩).daily_average
        = 0 ∧
    (get_spending_forecast ⟨[], 0, 0⟩ ⟨⟨0, 5⟩, ⟨0, 0⟩, ⟨30, 0⟩, 1, 31⟩).daily_average
        = 0 := by
  constructor
  · rw [(spending_forecast_formula ⟨[], 0, 0⟩
      ⟨⟨2, 5⟩, ⟨0, 0⟩, ⟨30, 0⟩, 3, 31⟩).1 (by norm_num)]
    simp [windowSum, sumAmounts, get_daily_average, distinctRecordDays,
      get_total_income]
  · rw [(spending_forecast_formula ⟨[], 0, 0⟩
      ⟨⟨0, 5⟩, ⟨0, 0⟩, ⟨30, 0⟩, 1, 31⟩).2.1 rfl]
    simp [get_daily_average, distinctRecordDays]

/-- C8: inserting a record, then updating every mutable field (amount,
category, description, date) through the assigned id, then fetching by
that id, returns the updated mutable fields while `id` and `created_at`
keep their values from insertion; the update reports success. -/
theorem insert_update_fetch_roundtrip (db : Database) (r0 : IncomeRecord)
    (a : ℚ) (c d : String) (dt ca : DateTime)
    (hinv : ∀ row ∈ db.records, row.id < db.nextId) :
    (update_income (add_income db r0).2
        ⟨some (add_income db r0).1, a, c, d, dt, ca⟩).1 = true ∧
    get_income_by_id
        (update_income (add_income db r0).2
          ⟨some (add_income db r0).1, a, c, d, dt, ca⟩).2
        (add_income db r0).1 =
      some ⟨(add_income db r0).1, a, c, d, dt, r0.created_at⟩ := by
  unfold add_income update_income get_income_by_id
  simp only
  constructor
  · rw [List.any_append]
    simp
  · rw [List.map_append]
    have hmap : db.records.map (fun row =>
        if row.id == db.nextId then
          { row with amount := a, category := c,
                     description := d, date := dt }
        else row) = db.records := by
      rw [List.map_congr_left (g := id) ?_, List.map_id]
      intro row hr
      have : row.id ≠ db.nextId := Nat.ne_of_lt (hinv row hr)
      simp [this]
    rw [hmap, List.find?_append]
    have hnone : db.records.find? (fun row => row.id == db.nextId) = none :=
      List.find?_eq_none.mpr (fun row hr => by
        simp [Nat.ne_of_lt (hinv row hr)])
    rw [hnone]
    simp

/-- Witness for C8: insert into the empty store, rewrite every mutable
field, fetch back. -/
theorem insert_update_fetch_roundtrip_witness :
    (update_income
        (add_income ⟨[], 1, 0⟩ ⟨none, 7, "工资", "x", ⟨3, 0⟩, ⟨3, 1⟩⟩).2
        ⟨some (add_income ⟨[], 1, 0⟩ ⟨none, 7, "工资", "x", ⟨3, 0⟩, ⟨3, 1⟩⟩).1,
         9, "奖金", "y", ⟨4, 0⟩, ⟨4, 2⟩⟩).1 = true ∧
    get_income_by_id
        (update_income
          (add_income ⟨[], 1, 0⟩ ⟨none, 7, "工资", "x", ⟨3, 0⟩, ⟨3, 1⟩⟩).2
          ⟨some (add_income ⟨[], 1, 0⟩
              ⟨none, 7, "工资", "x", ⟨3, 0⟩, ⟨3, 1⟩⟩).1,
           9, "奖金", "y", ⟨4, 0⟩, ⟨4, 2⟩⟩).2
        (add_income ⟨[], 1, 0⟩ ⟨none, 7, "工资", "x", ⟨3, 0⟩, ⟨3, 1⟩⟩).1 =
      some ⟨(add_income ⟨[], 1, 0⟩ ⟨none, 7, "工资", "x", ⟨3, 0⟩, ⟨3, 1⟩⟩).1,
            9, "奖金", "y", ⟨4, 0⟩, ⟨3, 1⟩⟩ :=
  insert_update_fetch_roundtrip ⟨[], 1, 0⟩
    ⟨none, 7, "工资", "x", ⟨3, 0⟩, ⟨3, 1⟩⟩ 9 "奖金" "y" ⟨4, 0⟩ ⟨4, 2⟩
    (by intro row hr; simp at hr)

/-- The value the gap-filling loop of `get_daily_trend` reads for calendar
day `d`: the summed amounts of the records of the window
`[now - days, now]` that fall on day `d` (the grouped dict entry, or the
`0.0` default — which coincides with the empty sum). -/
def trendValue (db : Database) (now : DateTime) (days : ℕ) (d : ℤ) : ℚ :=
  sumAmounts ((db.records.filter (fun row =>
    decide (dtLe (subDays now days) row.date) &&
    decide (dtLe row.date now))).filter
    (fun row => row.date.day == d))

/-- The sequence of calendar days emitted by the gap-filling loop:
`n + 1` consecutive days starting at `c`. -/
def dayList (c : ℤ) : ℕ → List ℤ
  | 0 => [c]
  | n + 1 => c :: dayList (c + 1) n

/-- Compiled by hand? no: length of `dayList`. -/
lemma dayList_length (n : ℕ) : ∀ c : ℤ, (dayList c n).length = n + 1 := by
  induction n with
  | zero => intro c; rfl
  | succ m ih => intro c; simp [dayList, ih]

/-- Head of `dayList`. -/
lemma dayList_head (n : ℕ) (c : ℤ) : (dayList c n).head? = some c := by
  cases n <;> rfl

/-- Consecutive entries of `dayList` differ by exactly one day. -/
lemma dayList_chain (n : ℕ) : ∀ c : ℤ,
    List.Chain' (fun a b => b = a + 1) (dayList c n) := by
  induction n with
  | zero => intro c; simp [dayList]
  | succ m ih =>
    intro c
    refine List.chain'_cons'.mpr ⟨?_, ih (c + 1)⟩
    intro y hy
    rw [dayList_head] at hy
    simp only [Option.mem_def, Option.some.injEq] at hy
    omega

/-- Closed form of `dayList` as an arithmetic progression. -/
lemma dayList_eq_range_map (n : ℕ) : ∀ c : ℤ,
    dayList c n = (List.range (n + 1)).map (fun k : ℕ => c + (k : ℤ)) := by
  induction n with
  | zero =>
    intro c
    rw [List.range_succ, List.range_zero, List.nil_append, List.map_cons,
      List.map_nil]
    simp [dayList]
  | succ m ih =>
    intro c
    rw [List.range_succ_eq_map, List.map_cons, List.map_map]
    show c :: dayList (c + 1) m = _
    congr 1
    · norm_num
    · rw [ih (c + 1)]
      refine List.map_congr_left (fun k hk => ?_)
      simp only [Function.comp_apply]
      push_cast
      ring

/-- Unfolding of the gap-filling loop, for a start lying `n` days before
`stop` at the same time of day: it emits exactly the `n + 1` calendar days
from `stop.day - n` up to `stop.day`, each with its looked-up value. -/
lemma trendLoop_spec (value : ℤ → ℚ) (stop : DateTime) :
    ∀ (n : ℕ) (c : DateTime), c.tod = stop.tod → c.day = stop.day - n →
      trendLoop value c stop =
        (dayList c.day n, (dayList c.day n).map value) := by
  intro n
  induction n with
  | zero =>
    intro c htod hday
    rw [trendLoop]
    rw [dif_pos (by unfold dtLe; omega)]
    rw [trendLoop]
    rw [dif_neg (by unfold addOneDay dtLe; simp; omega)]
    simp [dayList]
  | succ m ih =>
    intro c htod hday
    rw [trendLoop]
    rw [dif_pos (by unfold dtLe; left; push_cast at hday; omega)]
    rw [ih (addOneDay c) htod (by unfold addOneDay; push_cast at hday ⊢; omega)]
    have hd : (addOneDay c).day = c.day + 1 := rfl
    rw [hd]
    simp [dayList]

/-- Closed form of `get_daily_trend`: the dates are the `days + 1`
consecutive calendar days ending at `now`'s day, and each value is the
windowed per-day sum `trendValue`. -/
lemma get_daily_trend_eq (db : Database) (now : DateTime) (days : ℕ) :
    get_daily_trend db now days =
      (dayList (now.day - days) days,
       (dayList (now.day - days) days).map (trendValue db now days)) := by
  unfold get_daily_trend
  exact trendLoop_spec _ now days (subDays now days) rfl rfl

/-- C3 counterexample: with one record of amount `10` on calendar day `0`
at a time of day later than `now` (a future-dated record in the store),
`daily_trend(0)` reports the single day `0` with amount `0.0`, while the
sum of the record amounts on day `0` is `10` — the reported amount is not
the sum of the record amounts of that calendar day. -/
theorem daily_trend_day_sum_counterexample :
    (get_daily_trend ⟨[⟨1, 10, "a", "", ⟨0, 10⟩, ⟨0, 10⟩⟩], 2, 0⟩
        ⟨0, 5⟩ 0).1 = [0] ∧
    (get_daily_trend ⟨[⟨1, 10, "a", "", ⟨0, 10⟩, ⟨0, 10⟩⟩], 2, 0⟩
        ⟨0, 5⟩ 0).2 = [0] ∧
    dayTotal ⟨[⟨1, 10, "a", "", ⟨0, 10⟩, ⟨0, 10⟩⟩], 2, 0⟩ 0 = 10 ∧
    (get_daily_trend ⟨[⟨1, 10, "a", "", ⟨0, 10⟩, ⟨0, 10⟩⟩], 2, 0⟩
        ⟨0, 5⟩ 0).2 ≠
      [dayTotal ⟨[⟨1, 10, "a", "", ⟨0, 10⟩, ⟨0, 10⟩⟩], 2, 0⟩ 0] := by
  have h2 : (get_daily_trend ⟨[⟨1, 10, "a", "", ⟨0, 10⟩, ⟨0, 10⟩⟩], 2, 0⟩
      ⟨0, 5⟩ 0).2 = [0] := by
    rw [get_daily_trend_eq]
    simp [dayList, trendValue, subDays, dtLe, sumAmounts]
  have h3 : dayTotal ⟨[⟨1, 10, "a", "", ⟨0, 10⟩, ⟨0, 10⟩⟩], 2, 0⟩ 0 = 10 := by
    simp [dayTotal, sumAmounts]
  refine ⟨?_, h2, h3, ?_⟩
  · rw [get_daily_trend_eq]
    simp [dayList]
  · rw [h2, h3]
    intro hbad
    simp only [List.cons.injEq, and_true] at hbad
    norm_num at hbad

/-- C3 amended: `daily_trend(N)` returns two sequences of equal length
`N + 1` in positional correspondence, the dates strictly increasing by one
calendar day and covering every day of `[now - N days, now]`, and each
amount equal to the sum of the amounts of that day's records whose
datetime lies inside the inclusive window `[now - N days, now]` (`0.0`
when there is none); records on a boundary calendar day but outside the
exact window — e.g. on `now`'s day but later in the day than `now` — are
not counted. -/
theorem daily_trend_amended (db : Database) (now : DateTime) (N : ℕ) :
    (get_daily_trend db now N).1.length = N + 1 ∧
    (get_daily_trend db now N).2.length = N + 1 ∧
    (get_daily_trend db now N).1 =
      (List.range (N + 1)).map (fun k : ℕ => (subDays now N).day + (k : ℤ)) ∧
    List.Chain' (fun a b => b = a + 1) (get_daily_trend db now N).1 ∧
    (get_daily_trend db now N).2 =
      ((List.range (N + 1)).map
          (fun k : ℕ => (subDays now N).day + (k : ℤ))).map
        (trendValue db now N) := by
  rw [get_daily_trend_eq]
  refine ⟨?_, ?_, ?_, ?_, ?_⟩
  · simp [dayList_length]
  · simp [dayList_length]
  · simp only
    rw [dayList_eq_range_map]
    rfl
  · exact dayList_chain N (now.day - N)
  · simp only
    rw [dayList_eq_range_map]
    rfl

end RecordKeeping
